import Mathlib

/-!
Shallow embedding of the event-driven webhook workflow controller of this
repository: the `/webhook` endpoint `github_webhook`
(src/main/git/github_app_webhooks.py), its module-level iteration state
`PR_ITERATIONS`, the comment/verdict heuristics, the PR-number URL parser
(src/main/git/github_client.py), and the generation-response parser
`parse_agent_diff` (src/main/agents/coder_agent.py).

External collaborators (GitHub API calls and the two LLM agents) are modelled
as a pure oracle of response values; each call the handler makes is recorded
in an effect trace.  Python `KeyError` / `TypeError` / `ValueError` raised
inside the handler surface as a crashed result (an HTTP 5xx at the transport
layer), while a raised `HTTPException` surfaces as a client-error result.
-/

/- ===================== Python string primitives ===================== -/

/-- Whitespace characters stripped by Python `str.strip()` / `str.rstrip()`. -/
def isPyWhitespace (c : Char) : Bool :=
  c = ' ' || c = '\t' || c = '\n' || c = '\r' || c = '\x0b' || c = '\x0c'

/-- Python `str.rstrip()` with no argument: drop trailing whitespace. -/
def pyRstrip (s : String) : String :=
  ⟨(s.data.reverse.dropWhile isPyWhitespace).reverse⟩

/-- Python `str.strip()` with no argument: drop whitespace from both ends. -/
def pyStrip (s : String) : String :=
  ⟨((s.data.dropWhile isPyWhitespace).reverse.dropWhile isPyWhitespace).reverse⟩

/-- Python `str.strip(chars)`: drop the given characters from both ends. -/
def pyStripChars (chars : List Char) (s : String) : String :=
  ⟨((s.data.dropWhile (chars.contains ·)).reverse.dropWhile (chars.contains ·)).reverse⟩

/-- Python `str.rstrip(chars)`: drop the given characters from the right end. -/
def pyRstripChars (chars : List Char) (s : String) : String :=
  ⟨(s.data.reverse.dropWhile (chars.contains ·)).reverse⟩

/-- Split a character list at every occurrence of the separator character,
    Python `str.split(sep)`: always at least one (possibly empty) part. -/
def splitAtChar (sep : Char) : List Char → List (List Char)
  | [] => [[]]
  | c :: rest =>
    if c = sep then [] :: splitAtChar sep rest
    else
      match splitAtChar sep rest with
      | [] => [[c]]
      | l :: ls => (c :: l) :: ls

/-- Python `str.splitlines()` for text whose only line terminator is `"\n"`
    (the only terminator occurring in this development's inputs): a trailing
    newline yields no final empty line, and the empty string has no lines. -/
def pySplitlines (s : String) : List String :=
  let parts := splitAtChar '\n' s.data
  (if parts.getLast? = some [] then parts.dropLast else parts).map fun l => ⟨l⟩

/-- Contiguous-substring occurrence test on character lists. -/
def isSubstring (needle : List Char) : List Char → Bool
  | [] => needle.isEmpty
  | c :: rest => needle.isPrefixOf (c :: rest) || isSubstring needle rest

/-- Python `needle in hay` on strings. -/
def pyContains (hay needle : String) : Bool :=
  isSubstring needle.data hay.data

/-- Python `str.startswith`. -/
def pyStartsWith (s pre : String) : Bool :=
  pre.data.isPrefixOf s.data

/-- Python `str.endswith`. -/
def pyEndsWith (s suf : String) : Bool :=
  suf.data.reverse.isPrefixOf s.data.reverse

/-- Python `str.lower`, modelled on the ASCII range: no character of the
    `"request changes"` needle is the lowercase image of any non-ASCII
    character, so the containment tests below agree with full Unicode
    lowering on every input. -/
def pyLower (s : String) : String :=
  ⟨s.data.map Char.toLower⟩

/-- Python `sep.join(parts)`. -/
def pyJoin (sep : String) : List String → String
  | [] => ""
  | [s] => s
  | s :: rest => s ++ sep ++ pyJoin sep rest

/-- Python dict assignment `d[k] = v` on an insertion-ordered association
    list: replace in place when the key is present, else append. -/
def dictSet (d : List (String × String)) (k v : String) : List (String × String) :=
  if d.any (fun p => p.1 == k) then d.map fun p => if p.1 == k then (k, v) else p
  else d ++ [(k, v)]

/- ===================== parse_agent_diff ===================== -/

/-- Marker-line test of `parse_agent_diff`: after `rstrip()`, the line both
    starts and ends with `"==="` (src/main/agents/coder_agent.py line 71). -/
def isMarkerLine (line : String) : Bool :=
  pyStartsWith (pyRstrip line) "===" && pyEndsWith (pyRstrip line) "==="

/-- Flush the pending buffer into the file map.  The source guard is
    `if current_file:` — Python truthiness, so `None` and the empty string
    both skip the flush. -/
def flushFile (files : List (String × String)) (currentFile : Option String)
    (buffer : List String) : List (String × String) :=
  match currentFile with
  | some f => if f == "" then files else dictSet files f (pyStrip (pyJoin "\n" buffer))
  | none => files

/-- The line loop of `parse_agent_diff` (src/main/agents/coder_agent.py
    lines 69-79): each line is `rstrip`ped; a line starting and ending with
    `"==="` opens a new block named `line.strip("= ").strip()`; other lines
    are buffered; buffers are joined with `"\n"` and `strip`ped on flush. -/
def parseAgentDiffLoop : List String → Option String → List String →
    List (String × String) → List (String × String)
  | [], currentFile, buffer, files => flushFile files currentFile buffer
  | rawLine :: rest, currentFile, buffer, files =>
    let line := pyRstrip rawLine
    if pyStartsWith line "===" && pyEndsWith line "===" then
      parseAgentDiffLoop rest (some (pyStrip (pyStripChars ['=', ' '] line))) []
        (flushFile files currentFile buffer)
    else
      parseAgentDiffLoop rest currentFile (buffer ++ [line]) files

/-- `parse_agent_diff`: maps an agent response of repeated `=== path ===`
    blocks to the path-to-content mapping. -/
def parse_agent_diff (agentResponse : String) : List (String × String) :=
  parseAgentDiffLoop (pySplitlines agentResponse) none [] []

/- ===================== comment heuristics and URL parsing ===================== -/

/-- The verdict expression of src/main/git/github_app_webhooks.py line 190:
    `"request changes" if "request changes" in comment.lower() else "approve"`. -/
def verdict_of (comment : String) : String :=
  if pyContains (pyLower comment) "request changes" then "request changes" else "approve"

/-- `is_reviewer_comment` (src/main/git/github_app_webhooks.py lines 28-30). -/
def is_reviewer_comment (commentBody : String) : Bool :=
  pyContains commentBody "Вердикт:" || pyStartsWith commentBody "[REVIEWER]"

/-- Python `int(text)` restricted to non-empty decimal-digit strings (the only
    form the handler's PR URLs produce); any other text raises `ValueError`,
    modelled as `none`. -/
def pyIntOfDigits? (l : List Char) : Option Nat :=
  if l.isEmpty || !(l.all Char.isDigit) then none
  else some (l.foldl (fun acc c => acc * 10 + (c.toNat - 48)) 0)

/-- `GitHubAppClient.get_pr_number_from_url` (src/main/git/github_client.py):
    `int(pr_url.rstrip("/").split("/")[-1])`; a parse failure raises,
    modelled as `none`. -/
def get_pr_number_from_url (prUrl : String) : Option Nat :=
  pyIntOfDigits? ((splitAtChar '/' (pyRstripChars ['/'] prUrl).data).getLastD [])

/- ===================== iteration tracker ===================== -/

/-- `PR_ITERATIONS = defaultdict(int)` (webhooks line 18): a total map from
    PR number to count in which every unwritten key reads as 0. -/
abbrev TrackerState := Nat → Nat

def emptyTracker : TrackerState := fun _ => 0

def updState (st : TrackerState) (k v : Nat) : TrackerState :=
  fun n => if n = k then v else st n

/-- `MAX_ITERATIONS = 5` (webhooks line 19). -/
def MAX_ITERATIONS : Nat := 5

/-- One `PR_ITERATIONS[pr_number] += 1` followed by the
    `PR_ITERATIONS[pr_number] > MAX_ITERATIONS` comparison (webhooks lines
    180-181), parameterised by the limit constant.  Returns the new count,
    the exceeded flag, and the new state.  The read-increment-compare block
    contains no await point, so under the endpoint's single-threaded event
    loop it executes as one atomic step. -/
def incrementStep (maxIterations : Nat) (st : TrackerState) (pr : Nat) :
    Nat × Bool × TrackerState :=
  let newCount := st pr + 1
  (newCount, decide (newCount > maxIterations), updState st pr newCount)

/-- `PR_ITERATIONS[pr.number] = 1` (webhooks line 140): an unconditional
    assignment with no presence check and no failure outcome. -/
def initializeIteration (st : TrackerState) (pr : Nat) : TrackerState :=
  updState st pr 1

/-- Observations and final state of `k` successive increment steps on one
    key.  Each concurrent `incrementIfActive`-style call is one atomic
    `incrementStep`, so every interleaving of `k` indistinguishable calls
    executes them in some sequential order, which this captures. -/
def iterCalls (maxIterations : Nat) (st : TrackerState) (pr : Nat) :
    Nat → List (Nat × Bool) × TrackerState
  | 0 => ([], st)
  | k + 1 =>
    let step := incrementStep maxIterations st pr
    let rest := iterCalls maxIterations step.2.2 pr k
    ((step.1, step.2.1) :: rest.1, rest.2)

/- ===================== webhook payloads and collaborators ===================== -/

/-- The fields of `payload["issue"]` the handler reads.  `none` models an
    absent key; `pullRequestUrl?` collapses the nested
    `payload["issue"]["pull_request"]["url"]` lookup. -/
structure IssuePayload where
  number? : Option Nat
  title? : Option String
  body? : Option String
  pullRequestUrl? : Option String

/-- The fields of `payload["check_run"]` the handler reads:
    `.get("pull_requests", [])` (as the referenced PR numbers) and
    `["conclusion"]`. -/
structure CheckRunPayload where
  pullRequests : List Nat
  conclusion? : Option String

/-- The parsed JSON body, restricted to the keys the handler reads;
    `commentBody?` collapses `payload["comment"]["body"]`. -/
structure Payload where
  installationId? : Option Nat
  repositoryFullName? : Option String
  action? : Option String
  issue? : Option IssuePayload
  checkRun? : Option CheckRunPayload
  commentBody? : Option String

/-- Pure oracle for the external collaborators (GitHub API and the LLM
    agents): each field gives the value the corresponding call returns. -/
structure Collab where
  issueComments : String → Nat → List String
  listFiles : String → List String
  fileContent : String → String → Option String
  createdPrNumber : String → String → Nat
  prTitle : String → Nat → String
  prBody? : String → Nat → Option String
  prDiff : String → Nat → String
  prFiles : String → Nat → List String
  prHeadRef : String → Nat → String
  coderResult : String → List (String × String)
  reviewerResult : String → String

/-- One observable call the handler makes, in program order. -/
inductive Effect where
  | getIssueComments (repo : String) (issue : Nat)
  | listFiles (repo : String)
  | getFileContent (repo path : String)
  | invokeCoder (context : String)
  | createBranch (repo branch : String)
  | createOrUpdateFile (repo branch path content message : String)
  | createPullRequest (repo title head base body : String)
  | initIteration (pr count : Nat)
  | getPullRequest (repo : String) (pr : Nat)
  | getPrDiff (repo : String) (pr : Nat)
  | getPrFiles (repo : String) (pr : Nat)
  | invokeReviewer (context : String)
  | addPrComment (repo : String) (pr : Nat) (comment : String)
  deriving DecidableEq

/-- A Python exception escaping the handler (an HTTP 5xx at the transport). -/
inductive PyError where
  | keyError (key : String)
  | typeError (message : String)
  | valueError (message : String)
  deriving DecidableEq

/-- Outcome of one request: a returned status dict, a raised `HTTPException`,
    or an uncaught Python exception. -/
inductive HandlerResult where
  | ok (status : String)
  | clientError (code : Nat) (detail : String)
  | crashed (err : PyError)
  deriving DecidableEq

/-- Result, post-state of `PR_ITERATIONS`, and effect trace of one request. -/
structure StepResult where
  result : HandlerResult
  state : TrackerState
  trace : List Effect

/-- CPython argument binding for a function with the given parameter names,
    no default values and no *args/**kwargs: a keyword that is not a
    parameter raises `TypeError`, as do a keyword for an already-filled
    positional slot and an unfilled parameter. -/
def bindPythonCall (params : List String) (positionals : Nat)
    (keywords : List String) : Except String Unit :=
  if positionals > params.length then
    .error "too many positional arguments"
  else if keywords.any (fun k => !(params.contains k)) then
    .error "got an unexpected keyword argument"
  else if keywords.any (fun k => (params.take positionals).contains k) then
    .error "got multiple values for argument"
  else if !((params.drop positionals).all (keywords.contains ·)) then
    .error "missing a required positional argument"
  else
    .ok ()

/-- Parameter names of `run_coder_agent` as defined in
    src/main/agents/coder_agent.py line 83. -/
def runCoderAgentParams : List String := ["issue_title", "issue_body", "comments"]

/-- Parameter names of `run_reviewer_agent`
    (src/main/agents/reviewer_agent.py line 65). -/
def runReviewerAgentParams : List String := ["context"]

/- ===================== the webhook handler ===================== -/

/-- The `"issues"`/`"opened"` branch (webhooks lines 94-142).  The call
    `run_coder_agent(context, allowed_files=repo_files)` at line 117 is bound
    against the definition's parameter list; on a binding failure the branch
    crashes with `TypeError` before any branch, file or PR is created. -/
def handleIssueOpened (env : Collab) (repo : String) (p : Payload)
    (st : TrackerState) : StepResult :=
  match p.issue? with
  | none => ⟨.crashed (.keyError "issue"), st, []⟩
  | some issue =>
    match issue.number? with
    | none => ⟨.crashed (.keyError "number"), st, []⟩
    | some issueNumber =>
      match issue.title? with
      | none => ⟨.crashed (.keyError "title"), st, []⟩
      | some issueTitle =>
        let issueBody := issue.body?.getD ""
        let comments := env.issueComments repo issueNumber
        let repoFiles := env.listFiles repo
        let readable := repoFiles.filterMap fun path =>
          (env.fileContent repo path).map fun content => (path, content)
        let filesContext := readable.map fun pc => "=== " ++ pc.1 ++ " ===\n" ++ pc.2
        let context :=
          "Issue: " ++ issueTitle ++ "\n" ++
          "Описание: " ++ issueBody ++ "\n" ++
          "Комментарии:\n" ++ pyJoin "\n" comments ++ "\n\n" ++
          "Содержимое файлов репозитория:\n" ++ pyJoin "\n\n" filesContext
        let tr : List Effect :=
          .getIssueComments repo issueNumber :: .listFiles repo ::
            repoFiles.map (Effect.getFileContent repo)
        match bindPythonCall runCoderAgentParams 1 ["allowed_files"] with
        | .error msg => ⟨.crashed (.typeError msg), st, tr⟩
        | .ok _ =>
          let filesToUpdate := env.coderResult context
          let branchName := "issue-" ++ toString issueNumber ++ "-fix"
          let commitMsg := "Issue #" ++ toString issueNumber ++ " fix via Coder Agent"
          let prNumber := env.createdPrNumber repo branchName
          ⟨.ok "coder agent completed", initializeIteration st prNumber,
            tr ++ .invokeCoder context :: .createBranch repo branchName ::
              filesToUpdate.map (fun f =>
                Effect.createOrUpdateFile repo branchName f.1 f.2 commitMsg) ++
              [.createPullRequest repo ("Fix for issue #" ++ toString issueNumber)
                branchName "main" commitMsg,
               .initIteration prNumber 1]⟩

/-- The `"check_run"`/`"completed"` branch (webhooks lines 145-167). -/
def handleCheckRun (env : Collab) (repo : String) (p : Payload)
    (st : TrackerState) : StepResult :=
  match p.checkRun? with
  | none => ⟨.crashed (.keyError "check_run"), st, []⟩
  | some checkRun =>
    match checkRun.pullRequests with
    | [] => ⟨.ok "check_run without PR", st, []⟩
    | prNumber :: _ =>
      let prTitle := env.prTitle repo prNumber
      let prBody := (env.prBody? repo prNumber).getD ""
      let diffText := env.prDiff repo prNumber
      let tr : List Effect := [.getPullRequest repo prNumber, .getPrDiff repo prNumber]
      match checkRun.conclusion? with
      | none => ⟨.crashed (.keyError "conclusion"), st, tr⟩
      | some conclusion =>
        let context :=
          "PR: " ++ prTitle ++ "\n" ++
          "Описание: " ++ prBody ++ "\n" ++
          "Diff:\n" ++ diffText ++ "\n" ++
          "CI статус: " ++ conclusion
        match bindPythonCall runReviewerAgentParams 1 [] with
        | .error msg => ⟨.crashed (.typeError msg), st, tr⟩
        | .ok _ =>
          let reviewComment := env.reviewerResult context
          ⟨.ok "reviewer agent completed", st,
            tr ++ [.invokeReviewer context, .addPrComment repo prNumber reviewComment]⟩

/-- The `"issue_comment"`/`"created"` branch (webhooks lines 170-223).  Note
    the source order: the iteration increment (line 180) and the limit check
    (line 181) run before the verdict is classified (line 190); the
    `run_coder_agent(context, allowed_files=allowed_files)` call at line 211
    is bound against the definition's parameter list. -/
def handleIssueComment (env : Collab) (repo : String) (p : Payload)
    (st : TrackerState) : StepResult :=
  match p.commentBody? with
  | none => ⟨.crashed (.keyError "comment"), st, []⟩
  | some comment =>
    if !(is_reviewer_comment comment) then ⟨.ok "not reviewer comment", st, []⟩
    else
      match p.issue? with
      | none => ⟨.crashed (.keyError "issue"), st, []⟩
      | some issue =>
        match issue.pullRequestUrl? with
        | none => ⟨.crashed (.keyError "pull_request"), st, []⟩
        | some prUrl =>
          match get_pr_number_from_url prUrl with
          | none => ⟨.crashed (.valueError "invalid literal for int"), st, []⟩
          | some prNumber =>
            let step := incrementStep MAX_ITERATIONS st prNumber
            let newCount := step.1
            let st' := step.2.2
            if step.2.1 then
              ⟨.ok "max iterations reached", st',
                [.addPrComment repo prNumber
                  "[SYSTEM] Max iterations reached. Manual intervention required."]⟩
            else if verdict_of comment = "approve" then
              ⟨.ok "review approved", st', []⟩
            else
              let prTitle := env.prTitle repo prNumber
              let prBody := (env.prBody? repo prNumber).getD ""
              let diffText := env.prDiff repo prNumber
              let context :=
                "PR: " ++ prTitle ++ "\n" ++
                "Описание: " ++ prBody ++ "\n" ++
                "Текущий diff:\n" ++ diffText ++ "\n\n" ++
                "Комментарий ревьювера:\n" ++ comment ++ "\n\n" ++
                "Итерация: " ++ toString newCount ++ " из " ++ toString MAX_ITERATIONS
              let tr : List Effect :=
                [.getPullRequest repo prNumber, .getPrDiff repo prNumber,
                 .getPrFiles repo prNumber]
              match bindPythonCall runCoderAgentParams 1 ["allowed_files"] with
              | .error msg => ⟨.crashed (.typeError msg), st', tr⟩
              | .ok _ =>
                let filesToUpdate := env.coderResult context
                let headBranch := env.prHeadRef repo prNumber
                let commitMsg := "Fix after review iteration " ++ toString newCount
                ⟨.ok "coder iteration completed", st',
                  tr ++ .invokeCoder context ::
                    filesToUpdate.map fun f =>
                      Effect.createOrUpdateFile repo headBranch f.1 f.2 commitMsg⟩

/-- The `/webhook` endpoint `github_webhook`
    (src/main/git/github_app_webhooks.py lines 68-226).  `sigOk` is the
    outcome of the `X-Hub-Signature-256` check (header present and
    `verify_signature` true); the HMAC computation itself is not modelled.
    `event?` is the `X-Github-Event` header. -/
def github_webhook (env : Collab) (sigOk : Bool) (event? : Option String)
    (p : Payload) (st : TrackerState) : StepResult :=
  if !sigOk then ⟨.clientError 400 "Invalid signature", st, []⟩
  else if event? = some "ping" then ⟨.ok "pong", st, []⟩
  else
    match p.installationId? with
    | none => ⟨.clientError 400 "Malformed payload", st, []⟩
    | some _installationId =>
      match p.repositoryFullName? with
      | none => ⟨.clientError 400 "Malformed payload", st, []⟩
      | some repo =>
        if event? = some "issues" ∧ p.action? = some "opened" then
          handleIssueOpened env repo p st
        else if event? = some "check_run" ∧ p.action? = some "completed" then
          handleCheckRun env repo p st
        else if event? = some "issue_comment" ∧ p.action? = some "created" then
          handleIssueComment env repo p st
        else ⟨.ok "ok", st, []⟩

/- ===================== concrete oracle and payloads ===================== -/

/-- Concrete collaborator oracle used by the closed evaluation theorems. -/
def testEnv : Collab where
  issueComments := fun _ _ => ["please fix"]
  listFiles := fun _ => ["app.py"]
  fileContent := fun _ _ => some "print(1)"
  createdPrNumber := fun _ _ => 7
  prTitle := fun _ _ => "Fix for issue #5"
  prBody? := fun _ _ => some "Issue #5 fix via Coder Agent"
  prDiff := fun _ _ => "diff text"
  prFiles := fun _ _ => ["app.py"]
  prHeadRef := fun _ _ => "issue-5-fix"
  coderResult := fun _ => [("app.py", "print(2)")]
  reviewerResult := fun _ => "Вердикт: approve"

/-- A well-formed `"issues"`/`"opened"` payload. -/
def issueOpenedPayload : Payload :=
  { installationId? := some 1
    repositoryFullName? := some "org/alpha"
    action? := some "opened"
    issue? := some { number? := some 5, title? := some "Fix bug",
                     body? := some "It crashes", pullRequestUrl? := none }
    checkRun? := none
    commentBody? := none }

/-- The API URL of pull request 7 of the given repository. -/
def prUrl7 (repo : String) : String :=
  "https://api.github.com/repos/" ++ repo ++ "/pulls/7"

/-- A well-formed `"issue_comment"`/`"created"` payload whose parent issue is
    pull request 7 of the given repository. -/
def reviewerCommentPayload (repo comment : String) : Payload :=
  { installationId? := some 1
    repositoryFullName? := some repo
    action? := some "created"
    issue? := some { number? := some 5, title? := none, body? := none,
                     pullRequestUrl? := some (prUrl7 repo) }
    checkRun? := none
    commentBody? := some comment }

/-- The tracker state left by handling an approve-verdict reviewer comment on
    pull request 7 of repository `org/beta`. -/
def stateAfterBeta (st : TrackerState) : TrackerState :=
  (github_webhook testEnv true (some "issue_comment")
    (reviewerCommentPayload "org/beta" "Вердикт: approve") st).state

def Effect.isCreatePullRequest : Effect → Bool
  | .createPullRequest .. => true
  | _ => false

def Effect.isInitIteration : Effect → Bool
  | .initIteration .. => true
  | _ => false

def Effect.isInvokeCoder : Effect → Bool
  | .invokeCoder .. => true
  | _ => false

def Effect.isInvokeReviewer : Effect → Bool
  | .invokeReviewer .. => true
  | _ => false

def Effect.isCreateOrUpdateFile : Effect → Bool
  | .createOrUpdateFile .. => true
  | _ => false

/- ===================== general lemmas about the tracker ===================== -/

/-- Count of non-exceeded observations across `k` increment steps: the limit
    minus the starting count, capped by `k`. -/
theorem iterCalls_countP_false (m pr k : Nat) : ∀ st : TrackerState,
    ((iterCalls m st pr k).1.countP fun r => !r.2) = min (m - st pr) k := by
  induction k with
  | zero => intro st; simp [iterCalls]
  | succ k ih =>
    intro st
    have hupd : updState st pr (st pr + 1) pr = st pr + 1 := by simp [updState]
    by_cases h : st pr + 1 > m
    · simp [iterCalls, incrementStep, List.countP_cons, h, ih, hupd]
      omega
    · simp [iterCalls, incrementStep, List.countP_cons, h, ih, hupd]
      omega

/-- Count of exceeded observations across `k` increment steps. -/
theorem iterCalls_countP_true (m pr k : Nat) : ∀ st : TrackerState,
    ((iterCalls m st pr k).1.countP fun r => r.2) = k - min (m - st pr) k := by
  induction k with
  | zero => intro st; simp [iterCalls]
  | succ k ih =>
    intro st
    have hupd : updState st pr (st pr + 1) pr = st pr + 1 := by simp [updState]
    by_cases h : st pr + 1 > m
    · simp [iterCalls, incrementStep, List.countP_cons, h, ih, hupd]
      omega
    · simp [iterCalls, incrementStep, List.countP_cons, h, ih, hupd]
      omega

/-- The stored count advances by exactly one per increment step. -/
theorem iterCalls_final (m pr k : Nat) : ∀ st : TrackerState,
    (iterCalls m st pr k).2 pr = st pr + k := by
  induction k with
  | zero => intro st; simp [iterCalls]
  | succ k ih =>
    intro st
    have hupd : updState st pr (st pr + 1) pr = st pr + 1 := by simp [updState]
    simp [iterCalls, incrementStep, ih, hupd]
    omega

/-- Once the stored count is above the limit, every later step observes
    `exceeded = true`. -/
theorem iterCalls_all_exceeded (m pr k : Nat) : ∀ st : TrackerState, m < st pr →
    ((iterCalls m st pr k).1.all fun r => r.2) = true := by
  induction k with
  | zero => intro st _; simp [iterCalls]
  | succ k ih =>
    intro st h
    have h1 : st pr + 1 > m := by omega
    have h2 : m < updState st pr (st pr + 1) pr := by simp [updState]; omega
    simp only [iterCalls, incrementStep, List.all_cons, decide_eq_true h1, Bool.true_and]
    exact ih (updState st pr (st pr + 1)) h2

/-- If no line of the input is a `===` marker line, the parse loop started
    with no open block leaves the file map unchanged. -/
theorem parseLoop_no_marker : ∀ lines : List String,
    (∀ l ∈ lines, isMarkerLine l = false) → ∀ buffer files,
    parseAgentDiffLoop lines none buffer files = files := by
  intro lines
  induction lines with
  | nil => intro _ buffer files; rfl
  | cons l rest ih =>
    intro h buffer files
    have hl : (pyStartsWith (pyRstrip l) "===" && pyEndsWith (pyRstrip l) "===") = false :=
      h l (by simp)
    simp only [parseAgentDiffLoop, hl, if_false, Bool.false_eq_true]
    exact ih (fun x hx => h x (by simp [hx])) _ _

/- ===================== claims ===================== -/

/-- Claim C1 (code bug witness): on a signature-verified `"issues"`/`"opened"`
    event with no prior iteration state, the handler reads the issue comments
    and repository files and then crashes with a `TypeError` — the call
    `run_coder_agent(context, allowed_files=repo_files)` passes a keyword the
    definition `run_coder_agent(issue_title, issue_body, comments)` does not
    accept — so no pull request is created and `initialize(prKey, 1)` never
    runs, instead of exactly one of each as claimed. -/
theorem C1_issue_opened_typeerror :
    (github_webhook testEnv true (some "issues") issueOpenedPayload emptyTracker).result
      = .crashed (.typeError "got an unexpected keyword argument") ∧
    (github_webhook testEnv true (some "issues") issueOpenedPayload emptyTracker).trace
      = [.getIssueComments "org/alpha" 5, .listFiles "org/alpha",
         .getFileContent "org/alpha" "app.py"] ∧
    ((github_webhook testEnv true (some "issues") issueOpenedPayload emptyTracker).trace.countP
      Effect.isCreatePullRequest = 0) ∧
    ((github_webhook testEnv true (some "issues") issueOpenedPayload emptyTracker).trace.countP
      Effect.isInitIteration = 0) ∧
    (github_webhook testEnv true (some "issues") issueOpenedPayload emptyTracker).state
      = emptyTracker :=
  ⟨by decide, by decide, by decide, by decide, rfl⟩

/-- Claim C2, counterexample: an Approve-classified reviewer comment for pull
    request 7 on a fresh tracker returns review-approved but changes the
    stored count from 0 to 1 — the increment at line 180 runs before the
    verdict is classified, refuting "leaves the iteration count unchanged". -/
theorem C2_counterexample :
    (github_webhook testEnv true (some "issue_comment")
      (reviewerCommentPayload "org/alpha" "Вердикт: approve, looks good") emptyTracker).result
      = .ok "review approved" ∧
    (github_webhook testEnv true (some "issue_comment")
      (reviewerCommentPayload "org/alpha" "Вердикт: approve, looks good") emptyTracker).state 7
      = 1 ∧
    emptyTracker 7 = 0 := by
  refine ⟨by decide, by decide, rfl⟩

/-- Claim C2, amended: processing a reviewer comment below the iteration limit
    whose verdict classifies as Approve performs no collaborator call at all —
    in particular neither agent is invoked — but it does increment the
    iteration count for the pull request by one, because the increment
    precedes verdict classification in the handler. -/
theorem C2_amended (env : Collab) (st : TrackerState) (repo : String) (inst : Nat)
    (n? : Option Nat) (t? b? : Option String) (cr? : Option CheckRunPayload)
    (url : String) (pr : Nat) (comment : String)
    (hrev : is_reviewer_comment comment = true)
    (happrove : pyContains (pyLower comment) "request changes" = false)
    (hurl : get_pr_number_from_url url = some pr)
    (hbelow : st pr + 1 ≤ MAX_ITERATIONS) :
    github_webhook env true (some "issue_comment")
      ⟨some inst, some repo, some "created", some ⟨n?, t?, b?, some url⟩, cr?, some comment⟩ st
      = ⟨.ok "review approved", updState st pr (st pr + 1), []⟩ := by
  have hnot : ¬ (st pr + 1 > MAX_ITERATIONS) := by omega
  show handleIssueComment env repo
      ⟨some inst, some repo, some "created", some ⟨n?, t?, b?, some url⟩, cr?, some comment⟩ st
      = ⟨.ok "review approved", updState st pr (st pr + 1), []⟩
  simp [handleIssueComment, hrev, hurl, incrementStep, hnot, verdict_of, happrove]

/-- Witness for C2_amended at a concrete approve comment on pull request 7. -/
theorem C2_amended_witness :
    (is_reviewer_comment "Вердикт: approve, looks good" = true) ∧
    (pyContains (pyLower "Вердикт: approve, looks good") "request changes" = false) ∧
    (get_pr_number_from_url (prUrl7 "org/alpha") = some 7) ∧
    (emptyTracker 7 + 1 ≤ MAX_ITERATIONS) ∧
    github_webhook testEnv true (some "issue_comment")
      ⟨some 1, some "org/alpha", some "created",
       some ⟨some 5, none, none, some (prUrl7 "org/alpha")⟩, none,
       some "Вердикт: approve, looks good"⟩ emptyTracker
      = ⟨.ok "review approved", updState emptyTracker 7 (emptyTracker 7 + 1), []⟩ :=
  ⟨by decide, by decide, by decide, by decide,
   C2_amended testEnv emptyTracker "org/alpha" 1 (some 5) none none none
     (prUrl7 "org/alpha") 7 "Вердикт: approve, looks good"
     (by decide) (by decide) (by decide) (by decide)⟩

/-- Claim C3, counterexample: with the source's `MAX_ITERATIONS = 5`, seven
    increments on a fresh key observe counts 1..7; the 6th call is the first
    to report exceeded, but the 7th call still advances the stored count from
    6 to 7 — the count is not frozen after the first exceeded report. -/
theorem C3_counterexample :
    (iterCalls MAX_ITERATIONS emptyTracker 0 7).1
      = [(1, false), (2, false), (3, false), (4, false), (5, false),
         (6, true), (7, true)] ∧
    (iterCalls MAX_ITERATIONS emptyTracker 0 6).2 0 = 6 ∧
    (iterCalls MAX_ITERATIONS emptyTracker 0 7).2 0 = 7 := by
  refine ⟨by decide, by decide, by decide⟩

/-- Claim C3, amended: once the stored count is above `MAX_ITERATIONS` (as it
    is right after the first exceeded report), every subsequent call reports
    `exceeded = true`, but each such call still increments the stored count by
    one: after `k` further calls the count is the old count plus `k`. -/
theorem C3_amended (st : TrackerState) (pr k : Nat) (h : MAX_ITERATIONS < st pr) :
    ((iterCalls MAX_ITERATIONS st pr k).1.all fun r => r.2) = true ∧
    (iterCalls MAX_ITERATIONS st pr k).2 pr = st pr + k :=
  ⟨iterCalls_all_exceeded MAX_ITERATIONS pr k st h,
   iterCalls_final MAX_ITERATIONS pr k st⟩

/-- Witness for C3_amended: two further calls after the count reached 6. -/
theorem C3_amended_witness :
    (MAX_ITERATIONS < updState emptyTracker 3 6 3) ∧
    (((iterCalls MAX_ITERATIONS (updState emptyTracker 3 6) 3 2).1.all fun r => r.2) = true ∧
     (iterCalls MAX_ITERATIONS (updState emptyTracker 3 6) 3 2).2 3
       = updState emptyTracker 3 6 3 + 2) :=
  ⟨by decide, C3_amended (updState emptyTracker 3 6) 3 2 (by decide)⟩

/-- Claim C4, counterexample: the code's initialization
    (`PR_ITERATIONS[pr.number] = 1`, line 140) re-run for a key whose stored
    count is 3 succeeds and overwrites the count to 1 — there is no
    `AlreadyExists` failure and the count is not preserved. -/
theorem C4_counterexample :
    initializeIteration (updState emptyTracker 7 3) 7 7 = 1 ∧
    updState emptyTracker 7 3 7 = 3 := by
  refine ⟨by decide, by decide⟩

/-- Claim C4, amended: initialization is an unconditional assignment — for any
    prior state it sets the key's count to 1 (overwriting any existing value)
    and leaves every other key unchanged; it has no failure outcome.  (In the
    current code a duplicate "issue opened" delivery still cannot reset a
    count, but only because the generation call crashes with a TypeError
    before line 140 is reached.) -/
theorem C4_amended (st : TrackerState) (k j : Nat) :
    initializeIteration st k j = if j = k then 1 else st j := rfl

/-- Claim C5: with limit 3, any number `N ≥ 3` of concurrent increment calls
    on a fresh key — each call's read-increment-compare block is atomic, since
    it contains no await point, so every interleaving is a sequential order of
    the `N` indistinguishable calls — yields exactly 3 observations of
    `exceeded = false`, `N - 3` observations of `exceeded = true`, and a final
    count of exactly `N` (no double counting). -/
theorem C5_concurrent_increments (pr N : Nat) (h : 3 ≤ N) :
    ((iterCalls 3 emptyTracker pr N).1.countP fun r => !r.2) = 3 ∧
    ((iterCalls 3 emptyTracker pr N).1.countP fun r => r.2) = N - 3 ∧
    (iterCalls 3 emptyTracker pr N).2 pr = N := by
  have h1 := iterCalls_countP_false 3 pr N emptyTracker
  have h2 := iterCalls_countP_true 3 pr N emptyTracker
  have h3 := iterCalls_final 3 pr N emptyTracker
  have he : emptyTracker pr = 0 := rfl
  exact ⟨by omega, by omega, by omega⟩

/-- Witness for C5_concurrent_increments at N = 5. -/
theorem C5_concurrent_increments_witness :
    (3 ≤ 5) ∧
    (((iterCalls 3 emptyTracker 7 5).1.countP fun r => !r.2) = 3 ∧
     ((iterCalls 3 emptyTracker 7 5).1.countP fun r => r.2) = 5 - 3 ∧
     (iterCalls 3 emptyTracker 7 5).2 7 = 5) :=
  ⟨by decide, C5_concurrent_increments 7 5 (by decide)⟩

/-- Claim C6, counterexample: the tracker is keyed by pull-request number
    alone.  An approve-verdict reviewer comment for PR 7 of `org/beta` moves
    the count that a later event for PR 7 of `org/alpha` observes from 1 to 2;
    after five `org/beta` events, the first `org/alpha` event for its own PR 7
    is answered "max iterations reached" although no event for `org/alpha`
    ever ran before — operations on one repository's PR read and change the
    count used for the other's. -/
theorem C6_counterexample :
    (github_webhook testEnv true (some "issue_comment")
      (reviewerCommentPayload "org/alpha" "Вердикт: approve") emptyTracker).state 7 = 1 ∧
    stateAfterBeta emptyTracker 7 = 1 ∧
    (github_webhook testEnv true (some "issue_comment")
      (reviewerCommentPayload "org/alpha" "Вердикт: approve")
      (stateAfterBeta emptyTracker)).state 7 = 2 ∧
    (github_webhook testEnv true (some "issue_comment")
      (reviewerCommentPayload "org/alpha" "Вердикт: approve")
      (stateAfterBeta (stateAfterBeta (stateAfterBeta
        (stateAfterBeta (stateAfterBeta emptyTracker)))))).result
      = .ok "max iterations reached" := by
  refine ⟨by decide, by decide, by decide, by decide⟩

/-- Claim C6, amended: iteration state is keyed by `pullRequestNumber` alone —
    for reviewer comment events that differ only in repository (and
    installation or unused issue fields) the resulting tracker state is
    identical, so same-numbered pull requests of different repositories share
    one count. -/
theorem C6_amended (env : Collab) (st : TrackerState) (rA rB : String)
    (instA instB : Nat) (nA? nB? : Option Nat) (tA? tB? bA? bB? : Option String)
    (crA? crB? : Option CheckRunPayload) (url comment : String) :
    (github_webhook env true (some "issue_comment")
      ⟨some instA, some rA, some "created", some ⟨nA?, tA?, bA?, some url⟩, crA?,
       some comment⟩ st).state
    = (github_webhook env true (some "issue_comment")
      ⟨some instB, some rB, some "created", some ⟨nB?, tB?, bB?, some url⟩, crB?,
       some comment⟩ st).state := by
  show (handleIssueComment env rA
      ⟨some instA, some rA, some "created", some ⟨nA?, tA?, bA?, some url⟩, crA?,
       some comment⟩ st).state
    = (handleIssueComment env rB
      ⟨some instB, some rB, some "created", some ⟨nB?, tB?, bB?, some url⟩, crB?,
       some comment⟩ st).state
  simp only [handleIssueComment]
  cases h1 : is_reviewer_comment comment
  · rfl
  · simp only [Bool.not_true, Bool.false_eq_true, if_false]
    cases h2 : get_pr_number_from_url url with
    | none => rfl
    | some pr =>
      by_cases h3 : st pr + 1 > MAX_ITERATIONS
      · simp [incrementStep, h3]
      · by_cases h4 : verdict_of comment = "approve"
        · simp [incrementStep, h3, h4]
        · simp only [incrementStep, h3, h4, if_false]
          rfl

/-- Claim C7, counterexample: a signature-verified `"issues"`/`"opened"`
    payload that has `installation` and `repository` but no `issue` key makes
    the handler raise an uncaught `KeyError` (a server error at the
    transport), not the claimed HTTP 400 client error; likewise a
    `"check_run"`/`"completed"` payload without the `check_run` object. -/
theorem C7_counterexample :
    (github_webhook testEnv true (some "issues")
      { installationId? := some 1, repositoryFullName? := some "org/alpha",
        action? := some "opened", issue? := none, checkRun? := none,
        commentBody? := none } emptyTracker).result = .crashed (.keyError "issue") ∧
    ¬ ((github_webhook testEnv true (some "issues")
      { installationId? := some 1, repositoryFullName? := some "org/alpha",
        action? := some "opened", issue? := none, checkRun? := none,
        commentBody? := none } emptyTracker).result = .clientError 400 "Malformed payload") ∧
    (github_webhook testEnv true (some "check_run")
      { installationId? := some 1, repositoryFullName? := some "org/alpha",
        action? := some "completed", issue? := none, checkRun? := none,
        commentBody? := none } emptyTracker).result = .crashed (.keyError "check_run") := by
  refine ⟨by decide, by decide, by decide⟩

/-- Claim C7, amended: only a missing `installation`/`repository` key yields
    the HTTP 400 "Malformed payload" response (for any verified non-ping
    event); a payload missing the event-specific required key — `issue` for
    `"issues"`/`"opened"`, `check_run` for `"check_run"`/`"completed"` —
    raises an uncaught `KeyError` instead, which surfaces as a server error
    rather than a client error. -/
theorem C7_amended :
    (∀ (env : Collab) (st : TrackerState) (ev : Option String)
      (repoF act? cb : Option String) (iss : Option IssuePayload)
      (cr : Option CheckRunPayload), ev ≠ some "ping" →
      github_webhook env true ev ⟨none, repoF, act?, iss, cr, cb⟩ st
        = ⟨.clientError 400 "Malformed payload", st, []⟩) ∧
    (∀ (env : Collab) (st : TrackerState) (inst : Nat) (repo : String)
      (cr : Option CheckRunPayload) (cb : Option String),
      github_webhook env true (some "issues")
        ⟨some inst, some repo, some "opened", none, cr, cb⟩ st
        = ⟨.crashed (.keyError "issue"), st, []⟩) ∧
    (∀ (env : Collab) (st : TrackerState) (inst : Nat) (repo : String)
      (iss : Option IssuePayload) (cb : Option String),
      github_webhook env true (some "check_run")
        ⟨some inst, some repo, some "completed", iss, none, cb⟩ st
        = ⟨.crashed (.keyError "check_run"), st, []⟩) := by
  refine ⟨fun env st ev repoF act? cb iss cr hne => ?_,
    fun _ _ _ _ _ _ => rfl, fun _ _ _ _ _ _ => rfl⟩
  show (if ev = some "ping" then (⟨.ok "pong", st, []⟩ : StepResult)
        else ⟨.clientError 400 "Malformed payload", st, []⟩)
      = ⟨.clientError 400 "Malformed payload", st, []⟩
  rw [if_neg hne]

/-- Witness for C7_amended: concrete payloads for each of the three parts. -/
theorem C7_amended_witness :
    ((some "issues" : Option String) ≠ some "ping") ∧
    github_webhook testEnv true (some "issues")
      ⟨none, some "org/alpha", some "opened", none, none, none⟩ emptyTracker
      = ⟨.clientError 400 "Malformed payload", emptyTracker, []⟩ ∧
    github_webhook testEnv true (some "issues")
      ⟨some 1, some "org/alpha", some "opened", none, none, none⟩ emptyTracker
      = ⟨.crashed (.keyError "issue"), emptyTracker, []⟩ ∧
    github_webhook testEnv true (some "check_run")
      ⟨some 1, some "org/alpha", some "completed", none, none, none⟩ emptyTracker
      = ⟨.crashed (.keyError "check_run"), emptyTracker, []⟩ :=
  ⟨by decide,
   C7_amended.1 testEnv emptyTracker (some "issues") (some "org/alpha") (some "opened")
     none none none (by decide),
   C7_amended.2.1 testEnv emptyTracker 1 "org/alpha" none none,
   C7_amended.2.2 testEnv emptyTracker 1 "org/alpha" none none⟩

/-- Claim C8: the verdict expression yields "request changes" exactly when the
    lowercased comment contains the substring "request changes", and "approve"
    otherwise; the spec's two example comments and an uppercase variant
    classify accordingly (the match is a case-insensitive substring test). -/
theorem C8_verdict_rule :
    (∀ c : String,
      (verdict_of c = "request changes" ↔ pyContains (pyLower c) "request changes" = true) ∧
      (verdict_of c = "approve" ↔ pyContains (pyLower c) "request changes" = false)) ∧
    verdict_of "Вердикт: request changes, please fix X" = "request changes" ∧
    verdict_of "Вердикт: approve, looks good" = "approve" ∧
    verdict_of "Please REQUEST CHANGES here" = "request changes" := by
  refine ⟨fun c => ?_, by decide, by decide, by decide⟩
  unfold verdict_of
  cases h : pyContains (pyLower c) "request changes" <;> simp [h]

/-- Claim C9: the two-block response parses to the claimed mapping with
    per-block trimming, and any text none of whose lines is a `===` marker
    line parses to the empty mapping. -/
theorem C9_parse_agent_diff :
    parse_agent_diff "=== a/b.py ===\ncode1\n\n=== c.py ===\ncode2"
      = [("a/b.py", "code1"), ("c.py", "code2")] ∧
    ∀ t : String, ((pySplitlines t).all fun l => !(isMarkerLine l)) = true →
      parse_agent_diff t = [] := by
  refine ⟨by decide, fun t h => ?_⟩
  unfold parse_agent_diff
  refine parseLoop_no_marker _ ?_ _ _
  intro l hl
  have hx := List.all_eq_true.mp h l hl
  simpa using hx

/-- Witness for the universally quantified part of C9_parse_agent_diff. -/
theorem C9_parse_agent_diff_witness :
    (((pySplitlines "print(1)\nprint(2)").all fun l => !(isMarkerLine l)) = true) ∧
    parse_agent_diff "print(1)\nprint(2)" = [] :=
  ⟨by decide, C9_parse_agent_diff.2 "print(1)\nprint(2)" (by decide)⟩

/-- Claim C10 (code bug witness): a reviewer-marked "request changes" comment
    for a pull request with no iteration-state entry is not rejected — the
    `defaultdict` reads the missing key as 0 and the handler increments it to
    1 and enters the changes-requested branch (fetching the PR, its diff and
    its files) — but the generation step then crashes with a `TypeError` at
    the `run_coder_agent(context, allowed_files=...)` call instead of
    proceeding to update any file. -/
theorem C10_fresh_key_comment :
    (github_webhook testEnv true (some "issue_comment")
      (reviewerCommentPayload "org/alpha" "Вердикт: request changes") emptyTracker).result
      = .crashed (.typeError "got an unexpected keyword argument") ∧
    (github_webhook testEnv true (some "issue_comment")
      (reviewerCommentPayload "org/alpha" "Вердикт: request changes") emptyTracker).state 7
      = 1 ∧
    (github_webhook testEnv true (some "issue_comment")
      (reviewerCommentPayload "org/alpha" "Вердикт: request changes") emptyTracker).trace
      = [.getPullRequest "org/alpha" 7, .getPrDiff "org/alpha" 7,
         .getPrFiles "org/alpha" 7] ∧
    ((github_webhook testEnv true (some "issue_comment")
      (reviewerCommentPayload "org/alpha" "Вердикт: request changes") emptyTracker).trace.countP
      Effect.isCreateOrUpdateFile = 0) := by
  refine ⟨by decide, by decide, by decide, by decide⟩
